import Mathlib

/-!
MAX6950/MAX6951 LED driver: command encoding.

A shallow embedding of `src/max6951.c` and `src/max6951.h`.

* Unsigned C integers are natural numbers; a conversion to `uint8_t` is an
  explicit reduction modulo `2 ^ 8`, a `uint32_t` argument is a natural number
  below `2 ^ 32`. An `int` is an integer, and the result of an `int`
  multiplication is reduced modulo `2 ^ 32` into the range of a 32-bit `int`.
* The side effects of the driver are the calls it makes into the STM32 HAL.
  They are recorded, in order, in a trace that every operation receives and
  returns together with its error code.
-/

namespace Max695x

/-! ## Types of `max6951.h` -/

/-- The error codes `max695x_err_t`. -/
inductive max695x_err_t
  | MAX695X_ERR_NO_ERROR
  | MAX695X_ERR_INVALID_ARGUMENT
  deriving DecidableEq, Repr

open max695x_err_t

/-- The conversion of a C integer value to `uint8_t`. -/
def uint8_t (n : Nat) : Nat := n % 2 ^ 8

/-- The device handle `max695x_t`: the SPI handle and the chip-select port and
pin, each identified by a number. -/
structure max695x_t where
  hspi : Nat
  port_cs : Nat
  pin_cs : Nat
  deriving DecidableEq, Repr

/-- The HAL pin states written to the chip-select line. -/
inductive GPIO_PinState
  | GPIO_PIN_RESET
  | GPIO_PIN_SET
  deriving DecidableEq, Repr

/-- One call into the HAL, with its arguments. `HAL_SPI_Transmit` carries the
bytes of the buffer it is given and the byte count; its timeout argument
(`TIMEOUT_MS`, which no file of the repository defines) is left out. -/
inductive hal_call
  | HAL_GPIO_WritePin (port : Nat) (pin : Nat) (state : GPIO_PinState)
  | HAL_SPI_Transmit (hspi : Nat) (message : List Nat) (size : Nat)
  deriving DecidableEq, Repr

open GPIO_PinState hal_call

/-- The values of `enum max695x_display_mode`. -/
def MAX695X_MODE_TEST : Nat := 0
def MAX695X_MODE_NORMAL : Nat := 1

/-- The values of `enum max695x_blink_mode`. -/
def MAX695X_BLINK_SLOW : Nat := 0
def MAX695X_BLINK_FAST : Nat := 1
def MAX695X_BLINK_DISABLED : Nat := 0xFF

/-- The values of `enum max695x_digit_plane`. -/
def MAX695X_PLANE_P0_ONLY : Nat := 0x20
def MAX695X_PLANE_P1_ONLY : Nat := 0x40
def MAX695X_PLANES_P0_AND_P1 : Nat := 0x60

/-! ## Constants of `max6951.c` -/

/-- The control registers of `enum max695x_cmd_addr`: the datasheet address
shifted into the high byte of a 16-bit word. -/
def MAX695X_REG_NO_OP : Nat := 0x00 <<< 8
def MAX695X_REG_DECODE_MODE : Nat := 0x01 <<< 8
def MAX695X_REG_INTENSITY : Nat := 0x02 <<< 8
def MAX695X_REG_SCAN_LIMIT : Nat := 0x03 <<< 8
def MAX695X_REG_CONFIGURE : Nat := 0x04 <<< 8
def MAX695X_REG_TEST : Nat := 0x07 <<< 8

/-- Modelled from the spec: `max695x_set_intensity` names `MAX594X_REG_INTENSITY`,
which no file declares; the spec has the operation write "to intensity
register", which the source declares as `MAX695X_REG_INTENSITY`. -/
def MAX594X_REG_INTENSITY : Nat := MAX695X_REG_INTENSITY

/-- Modelled from the spec: `max695x_set_decode_mode` names
`MAX594X_REG_DECODE_MODE`, which no file declares; the spec has the operation
write "to decode-mode register", which the source declares as
`MAX695X_REG_DECODE_MODE`. -/
def MAX594X_REG_DECODE_MODE : Nat := MAX695X_REG_DECODE_MODE

/-- Modelled from the spec: `max695x_set_blink_mode` names
`MAX6951_BLINK_DISABLED`, which no file declares; the spec's mode "disabled" is
the header's `MAX695X_BLINK_DISABLED`. -/
def MAX6951_BLINK_DISABLED : Nat := MAX695X_BLINK_DISABLED

/-- Modelled from the spec: `max695x_set_blink_mode` names `MAX6951_BLINK_FAST`,
which no file declares; the spec's mode "fast" is the header's
`MAX695X_BLINK_FAST`. -/
def MAX6951_BLINK_FAST : Nat := MAX695X_BLINK_FAST

/-- Bit positions of the configuration register. -/
def D_OPERATION_MODE : Nat := 0
def D_CONFIG_UPDATED : Nat := 1
def D_BLINK_RATE : Nat := 2
def D_BLINK_ENABLE : Nat := 3
def D_BLINK_TIMING_RESET : Nat := 4
def D_RESET_DATA : Nat := 5

/-! ## Functions of `max6951.c` -/

/-- The function `_write`: both parameters are `uint8_t`, so the arguments are
converted on entry; chip select is taken low, the two-byte buffer
`message` is handed to the SPI, chip select is taken high, and the function
reports no error. -/
def _write (max695x : max695x_t) (cmd data : Nat) (bus : List hal_call) :
    max695x_err_t × List hal_call :=
  let message : List Nat := [uint8_t cmd, uint8_t data]
  (MAX695X_ERR_NO_ERROR,
    bus ++ [HAL_GPIO_WritePin max695x.port_cs max695x.pin_cs GPIO_PIN_RESET,
            HAL_SPI_Transmit max695x.hspi message 2,
            HAL_GPIO_WritePin max695x.port_cs max695x.pin_cs GPIO_PIN_SET])

/-- The function `max695x_set_blink_mode`; `blink_mode` is a `uint8_t`. -/
def max695x_set_blink_mode (max695x : max695x_t) (blink_mode : Nat)
    (bus : List hal_call) : max695x_err_t × List hal_call :=
  let data : Nat := 0
  let data : Nat :=
    if blink_mode ≠ MAX6951_BLINK_DISABLED then
      let data := uint8_t (data ||| (1 <<< D_BLINK_ENABLE))
      if blink_mode = MAX6951_BLINK_FAST then
        uint8_t (data ||| (1 <<< D_BLINK_RATE))
      else data
    else data
  _write max695x MAX695X_REG_CONFIGURE data bus

/-- The function `max695x_clear_digit_data`. The source passes `_write` the
register and the data only; the handle is the function's own parameter. -/
def max695x_clear_digit_data (max695x : max695x_t) (bus : List hal_call) :
    max695x_err_t × List hal_call :=
  let data : Nat := uint8_t (1 <<< D_RESET_DATA)
  _write max695x MAX695X_REG_CONFIGURE data bus

/-- The function `max695x_display_mode`; `display_mode` is a `uint8_t`. -/
def max695x_display_mode (max695x : max695x_t) (display_mode : Nat)
    (bus : List hal_call) : max695x_err_t × List hal_call :=
  let data : Nat := if display_mode = MAX695X_MODE_NORMAL then uint8_t 1 else uint8_t 0
  _write max695x MAX695X_REG_TEST data bus

/-- The function `max695x_set_num_digits`; `digits` is a `uint32_t`. The
expression `((uint8_t) digits - 1) & 0x07` is evaluated in `int`, then
converted to `uint8_t`. The source passes `_write` the register and the data
only; the handle is the function's own parameter. -/
def max695x_set_num_digits (max695x : max695x_t) (digits : Nat)
    (bus : List hal_call) : max695x_err_t × List hal_call :=
  if digits < 1 ∨ digits > 8 then (MAX695X_ERR_INVALID_ARGUMENT, bus)
  else
    let data : Nat := (Int.land (((uint8_t digits : Nat) : Int) - 1) 0x07 % 2 ^ 8).toNat
    _write max695x MAX695X_REG_SCAN_LIMIT data bus

/-- The function `max695x_set_intensity`; `intensity` is a `uint32_t`. The
source writes the cast as `(uint8_t intensity)` and passes `_write` the register
and the data only; the handle is the function's own parameter. -/
def max695x_set_intensity (max695x : max695x_t) (intensity : Nat)
    (bus : List hal_call) : max695x_err_t × List hal_call :=
  if intensity > 15 then (MAX695X_ERR_INVALID_ARGUMENT, bus)
  else
    let data : Nat := uint8_t (uint8_t intensity &&& 0x0F)
    _write max695x MAX594X_REG_INTENSITY data bus

/-- The function `max695x_set_decode_mode`; `digits_mask` is a `uint32_t`. The
source writes the cast as `(uint8_t digits_mask)` and passes `_write` the
register and the data only; the handle is the function's own parameter. -/
def max695x_set_decode_mode (max695x : max695x_t) (digits_mask : Nat)
    (bus : List hal_call) : max695x_err_t × List hal_call :=
  if digits_mask > 0x07 then (MAX695X_ERR_INVALID_ARGUMENT, bus)
  else
    let data : Nat := uint8_t (uint8_t digits_mask &&& 0x07)
    _write max695x MAX594X_REG_DECODE_MODE data bus

/-- The function `max695x_display_digit`; `digit_plane` is a `uint8_t`, `digit`
and `value` are `uint32_t`. The sum for `cmd` is taken in `int` and converted to
`uint8_t` on assignment; `digit` is read by the range check only. -/
def max695x_display_digit (max695x : max695x_t) (digit_plane digit value : Nat)
    (bus : List hal_call) : max695x_err_t × List hal_call :=
  if digit_plane ≠ MAX695X_PLANE_P0_ONLY ∧
      digit_plane ≠ MAX695X_PLANE_P1_ONLY ∧
      digit_plane ≠ MAX695X_PLANES_P0_AND_P1 then (MAX695X_ERR_INVALID_ARGUMENT, bus)
  else if digit > 7 then (MAX695X_ERR_INVALID_ARGUMENT, bus)
  else if value > 15 then (MAX695X_ERR_INVALID_ARGUMENT, bus)
  else
    let cmd : Nat := uint8_t (uint8_t digit_plane + uint8_t value)
    let data : Nat := uint8_t (uint8_t value &&& 0xF)
    _write max695x cmd data bus

/-- The trace of one chip-select-gated transmission of the two bytes
`address`, `data` on the device `max695x`: what a single `_write` appends. -/
def spi_frame (max695x : max695x_t) (address data : Nat) : List hal_call :=
  [HAL_GPIO_WritePin max695x.port_cs max695x.pin_cs GPIO_PIN_RESET,
   HAL_SPI_Transmit max695x.hspi [address, data] 2,
   HAL_GPIO_WritePin max695x.port_cs max695x.pin_cs GPIO_PIN_SET]

/-- The decimal-point flag `MAX695X_DP`. -/
def MAX695X_DP : Nat := 0x80

/-- The no-decode segment patterns `SSEG_*` of the header. -/
def SSEG_A : Nat := 0b01111101
def SSEG_B : Nat := 0b00011111
def SSEG_C : Nat := 0b00001101
def SSEG_D : Nat := 0b00111101
def SSEG_E : Nat := 0b01001111
def SSEG_F : Nat := 0b01000111
def SSEG_G : Nat := 0b01011110
def SSEG_H : Nat := 0b00010111
def SSEG_I : Nat := 0b01000100
def SSEG_J : Nat := 0b01011000
def SSEG_K : Nat := 0b01010111
def SSEG_L : Nat := 0b00001110
def SSEG_M : Nat := 0b01010101
def SSEG_N : Nat := 0b00010101
def SSEG_O : Nat := 0b00011101
def SSEG_P : Nat := 0b01100111
def SSEG_Q : Nat := 0b01110011
def SSEG_R : Nat := 0b00000101
def SSEG_S : Nat := 0b01011010
def SSEG_T : Nat := 0b00001111
def SSEG_U : Nat := 0b00011100
def SSEG_V : Nat := 0b00101010
def SSEG_W : Nat := 0b00101011
def SSEG_X : Nat := 0b00010100
def SSEG_Y : Nat := 0b00111011
def SSEG_Z : Nat := 0b01101100
def SSEG_0 : Nat := 0b01111110
def SSEG_1 : Nat := 0b00110000
def SSEG_2 : Nat := 0b01101101
def SSEG_3 : Nat := 0b01111001
def SSEG_4 : Nat := 0b00110011
def SSEG_5 : Nat := 0b01011011
def SSEG_6 : Nat := 0b01011111
def SSEG_7 : Nat := 0b01110000
def SSEG_8 : Nat := 0b01111111
def SSEG_9 : Nat := 0b01111011
def SSEG_DP : Nat := 0b10000000
def SSEG_NEG : Nat := 0b00000001

/-- The 36 letter and digit patterns `SSEG_A` .. `SSEG_Z`, `SSEG_0` .. `SSEG_9`,
in the order of the header. -/
def SSEG_glyphs : List Nat :=
  [SSEG_A, SSEG_B, SSEG_C, SSEG_D, SSEG_E, SSEG_F, SSEG_G, SSEG_H, SSEG_I, SSEG_J,
   SSEG_K, SSEG_L, SSEG_M, SSEG_N, SSEG_O, SSEG_P, SSEG_Q, SSEG_R, SSEG_S, SSEG_T,
   SSEG_U, SSEG_V, SSEG_W, SSEG_X, SSEG_Y, SSEG_Z, SSEG_0, SSEG_1, SSEG_2, SSEG_3,
   SSEG_4, SSEG_5, SSEG_6, SSEG_7, SSEG_8, SSEG_9]

/-! ## The Code B font and `ipow10` of `max6951.c` -/

def MAX695X_B_CODE_5 : Nat := 5
def MAX695X_B_CODE_6 : Nat := 6
def MAX695X_B_CODE_8 : Nat := 8
def MAX695X_B_CODE_9 : Nat := 9
def MAX695X_B_CODE_E : Nat := 11
def MAX695X_B_CODE_H : Nat := 12
def MAX695X_B_CODE_L : Nat := 13
def MAX695X_B_CODE_P : Nat := 14
def MAX695X_B_CODE_BLANK : Nat := 15

/-- The bounds of a 32-bit `int`. -/
def INT_MIN : Int := -2147483648
def INT_MAX : Int := 2147483647

/-- The value a 32-bit `int` holds after an arithmetic operation whose exact
result is `z`: `z` reduced modulo `2 ^ 32` into `INT_MIN .. INT_MAX`. -/
def wrap_int (z : Int) : Int := (z + 2147483648) % 4294967296 - 2147483648

/-- The `while (1)` loop of `ipow10` on the variables `exp`, `base`, `result`.
Beside the variables the loop carries `exact`, the list of the exact products
`result * base` and `base * base` it has computed so far, in order, each taken
before it is stored in its `int` variable. `fuel` bounds the number of passes;
the loop returns `none` when it is used up. -/
def ipow10_loop : Nat → Int → Int → Int → List Int → Option (Int × List Int)
  | 0, _, _, _, _ => none
  | fuel + 1, exp, base, result, exact =>
    let taken : Bool := Int.land exp 1 ≠ 0
    let exact := if taken then exact ++ [result * base] else exact
    let result := if taken then wrap_int (result * base) else result
    let exp := exp >>> 1
    if exp = 0 then some (result, exact)
    else ipow10_loop fuel exp (wrap_int (base * base)) result (exact ++ [base * base])

/-- The function `ipow10` together with the exact products it computed. An
`int` has 31 value bits, so 32 passes of the loop are enough for every
positive `exp`. -/
def ipow10_run (exp : Int) : Option (Int × List Int) :=
  if exp < 1 then some (1, [])
  else
    let base : Int := 10
    let result : Int := 1
    ipow10_loop 32 exp base result []

/-- The function `ipow10`: the value it returns. -/
def ipow10 (exp : Int) : Option Int := (ipow10_run exp).map Prod.fst


/-! ## The operation `max695x_display_number` -/

theorem uint8_t_of_lt {n : Nat} (h : n < 256) : uint8_t n = n := by
  unfold uint8_t
  omega

theorem land_0xF_of_le {v : Nat} (h : v ≤ 15) : v &&& 0xF = v := by
  interval_cases v <;> rfl

theorem land_0x07_of_le {v : Nat} (h : v ≤ 7) : v &&& 0x07 = v := by
  interval_cases v <;> rfl

theorem write_eq (max695x : max695x_t) (cmd data : Nat) (bus : List hal_call) :
    _write max695x cmd data bus =
      (MAX695X_ERR_NO_ERROR, bus ++ spi_frame max695x (uint8_t cmd) (uint8_t data)) := rfl

/-- What `max695x_display_digit` does on arguments that pass its three checks:
one transmission, of the address `digit_plane + value` and the data `value`. -/
theorem display_digit_of_valid (max695x : max695x_t) (digit_plane digit value : Nat)
    (bus : List hal_call)
    (hp : digit_plane = 0x20 ∨ digit_plane = 0x40 ∨ digit_plane = 0x60)
    (hd : digit ≤ 7) (hv : value ≤ 15) :
    max695x_display_digit max695x digit_plane digit value bus =
      (MAX695X_ERR_NO_ERROR, bus ++ spi_frame max695x (digit_plane + value) value) := by
  have h1 : ¬ (digit_plane ≠ MAX695X_PLANE_P0_ONLY ∧ digit_plane ≠ MAX695X_PLANE_P1_ONLY ∧
      digit_plane ≠ MAX695X_PLANES_P0_AND_P1) := by
    simp only [MAX695X_PLANE_P0_ONLY, MAX695X_PLANE_P1_ONLY, MAX695X_PLANES_P0_AND_P1]
    omega
  have h2 : ¬ digit > 7 := by omega
  have h3 : ¬ value > 15 := by omega
  have hv8 : uint8_t value = value := uint8_t_of_lt (by omega)
  have hp8 : uint8_t digit_plane = digit_plane := uint8_t_of_lt (by omega)
  have hs8 : uint8_t (digit_plane + value) = digit_plane + value := uint8_t_of_lt (by omega)
  simp only [max695x_display_digit, if_neg h1, if_neg h2, if_neg h3, write_eq, hv8, hp8, hs8,
    land_0xF_of_le hv]

theorem dp_flag_gt (v : Nat) : v ||| 0x80 > 15 := by
  have h : (v ||| 0x80).testBit 7 = true := by
    rw [Nat.testBit_or]
    have : Nat.testBit 0x80 7 = true := by decide
    simp [this]
  have := Nat.testBit_implies_ge h
  omega

/-! ## The digit registers -/

/-- C1: `max695x_display_digit` does not transmit the address `plane + digit`.
On plane P0, digit 3, value 5 it succeeds and transmits the address byte `0x25`,
not `0x23`; for every plane, digit index in 0..7 and value in 0..15 the address
byte transmitted is `plane + value`, whatever the digit index. -/
theorem display_digit_address_is_plane_plus_value (max695x : max695x_t) (bus : List hal_call) :
    max695x_display_digit max695x MAX695X_PLANE_P0_ONLY 3 5 bus =
        (MAX695X_ERR_NO_ERROR, bus ++ spi_frame max695x 0x25 5) ∧
      0x25 ≠ MAX695X_PLANE_P0_ONLY + 3 ∧
      ∀ (d : Fin 8) (v : Fin 16),
        ∀ plane ∈ [MAX695X_PLANE_P0_ONLY, MAX695X_PLANE_P1_ONLY, MAX695X_PLANES_P0_AND_P1],
          max695x_display_digit max695x plane d v bus =
            (MAX695X_ERR_NO_ERROR, bus ++ spi_frame max695x (plane + v) v) := by
  refine ⟨?_, by decide, ?_⟩
  · exact display_digit_of_valid max695x _ 3 5 bus (Or.inl rfl) (by decide) (by decide)
  · intro d v plane hplane
    apply display_digit_of_valid
    · simpa [MAX695X_PLANE_P0_ONLY, MAX695X_PLANE_P1_ONLY, MAX695X_PLANES_P0_AND_P1]
        using hplane
    · omega
    · omega

/-- C2: `max695x_display_digit` refuses a value that carries the decimal-point
flag. On plane P0, digit 3, value `0x85` it returns the invalid-argument error
and the bus is untouched; the same holds for every plane, every digit index and
every value with bit 7 ORed in. -/
theorem display_digit_rejects_decimal_point (max695x : max695x_t) (bus : List hal_call) :
    max695x_display_digit max695x MAX695X_PLANE_P0_ONLY 3 0x85 bus =
        (MAX695X_ERR_INVALID_ARGUMENT, bus) ∧
      ∀ plane digit v : Nat,
        max695x_display_digit max695x plane digit (v ||| 0x80) bus =
          (MAX695X_ERR_INVALID_ARGUMENT, bus) := by
  have key : ∀ plane digit value : Nat, value > 15 →
      max695x_display_digit max695x plane digit value bus =
        (MAX695X_ERR_INVALID_ARGUMENT, bus) := by
    intro plane digit value hv
    unfold max695x_display_digit
    split_ifs <;> rfl
  exact ⟨key _ _ _ (by decide), fun plane digit v => key _ _ _ (dp_flag_gt v)⟩

/-- C3: for a plane byte and 32-bit digit index and value,
`max695x_display_digit` returns the invalid-argument error exactly when the
plane is none of `0x20`, `0x40`, `0x60`, or the digit index exceeds 7, or the
value exceeds 15; when it reports no error, it has made one transmission whose
data byte is the value itself. -/
theorem display_digit_invalid_iff (max695x : max695x_t) (plane digit value : Nat)
    (bus : List hal_call) (hp : plane < 2 ^ 8) (hd : digit < 2 ^ 32) (hv : value < 2 ^ 32) :
    ((max695x_display_digit max695x plane digit value bus).1 = MAX695X_ERR_INVALID_ARGUMENT ↔
        ((plane ≠ 0x20 ∧ plane ≠ 0x40 ∧ plane ≠ 0x60) ∨ digit > 7 ∨ value > 15)) ∧
      ((max695x_display_digit max695x plane digit value bus).1 = MAX695X_ERR_NO_ERROR →
        ∃ address : Nat, (max695x_display_digit max695x plane digit value bus).2 =
          bus ++ spi_frame max695x address value) := by
  by_cases h : (plane ≠ 0x20 ∧ plane ≠ 0x40 ∧ plane ≠ 0x60) ∨ digit > 7 ∨ value > 15
  · have hr : max695x_display_digit max695x plane digit value bus =
        (MAX695X_ERR_INVALID_ARGUMENT, bus) := by
      unfold max695x_display_digit
      simp only [MAX695X_PLANE_P0_ONLY, MAX695X_PLANE_P1_ONLY, MAX695X_PLANES_P0_AND_P1]
      split_ifs <;> first | rfl | omega
    simp [hr, h]
  · have hr := display_digit_of_valid max695x plane digit value bus (by omega) (by omega)
      (by omega)
    rw [hr]
    exact ⟨by simp [h], fun _ => ⟨plane + value, rfl⟩⟩

theorem display_digit_invalid_iff_witness :
    (0x20 < 2 ^ 8 ∧ 3 < 2 ^ 32 ∧ 5 < 2 ^ 32) ∧
    (((max695x_display_digit ⟨1, 2, 3⟩ 0x20 3 5 []).1 = MAX695X_ERR_INVALID_ARGUMENT ↔
        ((0x20 ≠ 0x20 ∧ 0x20 ≠ 0x40 ∧ 0x20 ≠ 0x60) ∨ 3 > 7 ∨ 5 > 15)) ∧
      ((max695x_display_digit ⟨1, 2, 3⟩ 0x20 3 5 []).1 = MAX695X_ERR_NO_ERROR →
        ∃ address : Nat, (max695x_display_digit ⟨1, 2, 3⟩ 0x20 3 5 []).2 =
          [] ++ spi_frame ⟨1, 2, 3⟩ address 5)) :=
  ⟨by decide, display_digit_invalid_iff ⟨1, 2, 3⟩ 0x20 3 5 [] (by decide) (by decide) (by decide)⟩

/-- C4: the addresses `max695x_display_digit` transmits are not distinct across
(plane, digit index) pairs and do not stay in the plane's block: on plane P0 with
value 5, digit 0 and digit 1 both transmit the address `0x25`, and on plane P0,
digit 0, value 8 the address is `0x28`, above the block `0x20..0x27`. -/
theorem display_digit_addresses_collide (max695x : max695x_t) (bus : List hal_call) :
    max695x_display_digit max695x MAX695X_PLANE_P0_ONLY 0 5 bus =
        (MAX695X_ERR_NO_ERROR, bus ++ spi_frame max695x 0x25 5) ∧
      max695x_display_digit max695x MAX695X_PLANE_P0_ONLY 1 5 bus =
        (MAX695X_ERR_NO_ERROR, bus ++ spi_frame max695x 0x25 5) ∧
      max695x_display_digit max695x MAX695X_PLANE_P0_ONLY 0 8 bus =
        (MAX695X_ERR_NO_ERROR, bus ++ spi_frame max695x 0x28 8) ∧
      ¬ (0x28 ≤ MAX695X_PLANE_P0_ONLY + 7) :=
  ⟨display_digit_of_valid max695x _ 0 5 bus (Or.inl rfl) (by decide) (by decide),
   display_digit_of_valid max695x _ 1 5 bus (Or.inl rfl) (by decide) (by decide),
   display_digit_of_valid max695x _ 0 8 bus (Or.inl rfl) (by decide) (by decide),
   by decide⟩

/-! ## The control registers -/

/-- C5: the control-register operations do not transmit the datasheet address
of their register. Each register constant is the address shifted left by eight
bits, and `_write` takes it as a `uint8_t`, so the address byte transmitted is
`0x00` every time: for blink mode "fast" the bytes are `[0x00, 0x0C]`, not
`[0x04, 0x0C]`, and likewise for clearing the digit data, the display mode, the
number of digits, the intensity and the decode mode. -/
theorem control_register_address_is_zero (max695x : max695x_t) (bus : List hal_call) :
    max695x_set_blink_mode max695x MAX695X_BLINK_FAST bus =
        (MAX695X_ERR_NO_ERROR, bus ++ spi_frame max695x 0x00 0x0C) ∧
      max695x_clear_digit_data max695x bus =
        (MAX695X_ERR_NO_ERROR, bus ++ spi_frame max695x 0x00 0x20) ∧
      max695x_display_mode max695x MAX695X_MODE_NORMAL bus =
        (MAX695X_ERR_NO_ERROR, bus ++ spi_frame max695x 0x00 0x01) ∧
      max695x_set_num_digits max695x 8 bus =
        (MAX695X_ERR_NO_ERROR, bus ++ spi_frame max695x 0x00 0x07) ∧
      max695x_set_intensity max695x 15 bus =
        (MAX695X_ERR_NO_ERROR, bus ++ spi_frame max695x 0x00 0x0F) ∧
      max695x_set_decode_mode max695x 7 bus =
        (MAX695X_ERR_NO_ERROR, bus ++ spi_frame max695x 0x00 0x07) ∧
      uint8_t MAX695X_REG_CONFIGURE = 0x00 ∧ MAX695X_REG_CONFIGURE = 0x0400 :=
  ⟨rfl, rfl, rfl, rfl, rfl, rfl, rfl, rfl⟩

/-- C6: `max695x_set_decode_mode` does not accept a mask over all eight digits.
For the header's example mask `(1 << 0) | (1 << 1) | (1 << 4) = 0x13` it returns
the invalid-argument error and transmits nothing, as it does for the mask of
the fourth digit alone and for the full mask `0xFF`. -/
theorem set_decode_mode_rejects_header_example (max695x : max695x_t) (bus : List hal_call) :
    (1 <<< 0) ||| (1 <<< 1) ||| (1 <<< 4) = 0x13 ∧
      max695x_set_decode_mode max695x ((1 <<< 0) ||| (1 <<< 1) ||| (1 <<< 4)) bus =
        (MAX695X_ERR_INVALID_ARGUMENT, bus) ∧
      max695x_set_decode_mode max695x (1 <<< 3) bus = (MAX695X_ERR_INVALID_ARGUMENT, bus) ∧
      max695x_set_decode_mode max695x 0xFF bus = (MAX695X_ERR_INVALID_ARGUMENT, bus) :=
  ⟨rfl, rfl, rfl, rfl⟩

/-- C7: for a 32-bit mask, `max695x_set_decode_mode` returns the
invalid-argument error exactly when the mask exceeds `0x07`; for a mask in 0..7
it reports no error and makes one transmission whose data byte is the mask. -/
theorem set_decode_mode_invalid_iff (max695x : max695x_t) (mask : Nat) (bus : List hal_call)
    (hm : mask < 2 ^ 32) :
    ((max695x_set_decode_mode max695x mask bus).1 = MAX695X_ERR_INVALID_ARGUMENT ↔
        mask > 0x07) ∧
      (mask ≤ 0x07 → ∃ address : Nat, max695x_set_decode_mode max695x mask bus =
        (MAX695X_ERR_NO_ERROR, bus ++ spi_frame max695x address mask)) := by
  by_cases h : mask > 0x07
  · simp [max695x_set_decode_mode, h]
  · have h7 : mask ≤ 7 := by omega
    have hr : max695x_set_decode_mode max695x mask bus =
        (MAX695X_ERR_NO_ERROR,
          bus ++ spi_frame max695x (uint8_t MAX594X_REG_DECODE_MODE) mask) := by
      have h8 : uint8_t mask = mask := uint8_t_of_lt (by omega)
      simp only [max695x_set_decode_mode, if_neg h, write_eq, h8, land_0x07_of_le h7]
    rw [hr]
    exact ⟨by simp [h], fun _ => ⟨_, rfl⟩⟩

theorem set_decode_mode_invalid_iff_witness :
    5 < 2 ^ 32 ∧
    (((max695x_set_decode_mode ⟨1, 2, 3⟩ 5 []).1 = MAX695X_ERR_INVALID_ARGUMENT ↔ 5 > 0x07) ∧
      (5 ≤ 0x07 → ∃ address : Nat, max695x_set_decode_mode ⟨1, 2, 3⟩ 5 [] =
        (MAX695X_ERR_NO_ERROR, [] ++ spi_frame ⟨1, 2, 3⟩ address 5))) :=
  ⟨by decide, set_decode_mode_invalid_iff ⟨1, 2, 3⟩ 5 [] (by decide)⟩

/-- C8: for a 32-bit level, `max695x_set_intensity` returns the
invalid-argument error exactly when the level exceeds 15; for a level in 0..15
it reports no error and makes one transmission whose data byte is the level. -/
theorem set_intensity_invalid_iff (max695x : max695x_t) (level : Nat) (bus : List hal_call)
    (hl : level < 2 ^ 32) :
    ((max695x_set_intensity max695x level bus).1 = MAX695X_ERR_INVALID_ARGUMENT ↔
        level > 15) ∧
      (level ≤ 15 → ∃ address : Nat, max695x_set_intensity max695x level bus =
        (MAX695X_ERR_NO_ERROR, bus ++ spi_frame max695x address level)) := by
  by_cases h : level > 15
  · simp [max695x_set_intensity, h]
  · have h15 : level ≤ 15 := by omega
    have hr : max695x_set_intensity max695x level bus =
        (MAX695X_ERR_NO_ERROR,
          bus ++ spi_frame max695x (uint8_t MAX594X_REG_INTENSITY) level) := by
      have h8 : uint8_t level = level := uint8_t_of_lt (by omega)
      simp only [max695x_set_intensity, if_neg h, write_eq, h8, land_0xF_of_le h15]
    rw [hr]
    exact ⟨by simp [h], fun _ => ⟨_, rfl⟩⟩

theorem set_intensity_invalid_iff_witness :
    16 < 2 ^ 32 ∧
    (((max695x_set_intensity ⟨1, 2, 3⟩ 16 []).1 = MAX695X_ERR_INVALID_ARGUMENT ↔ 16 > 15) ∧
      (16 ≤ 15 → ∃ address : Nat, max695x_set_intensity ⟨1, 2, 3⟩ 16 [] =
        (MAX695X_ERR_NO_ERROR, [] ++ spi_frame ⟨1, 2, 3⟩ address 16))) :=
  ⟨by decide, set_intensity_invalid_iff ⟨1, 2, 3⟩ 16 [] (by decide)⟩

/-- C9: for a 32-bit `n`, `max695x_set_num_digits` returns the invalid-argument
error exactly when `n < 1` or `n > 8` (the test is made on the 32-bit value, so
a large `n` with a low byte in 1..8 is refused too); for `n` in 1..8 it reports
no error and makes one transmission whose data byte is `n - 1`. -/
theorem set_num_digits_invalid_iff (max695x : max695x_t) (n : Nat) (bus : List hal_call)
    (hn : n < 2 ^ 32) :
    ((max695x_set_num_digits max695x n bus).1 = MAX695X_ERR_INVALID_ARGUMENT ↔
        (n < 1 ∨ n > 8)) ∧
      (1 ≤ n ∧ n ≤ 8 → ∃ address : Nat, max695x_set_num_digits max695x n bus =
        (MAX695X_ERR_NO_ERROR, bus ++ spi_frame max695x address (n - 1))) := by
  by_cases h : n < 1 ∨ n > 8
  · simp only [max695x_set_num_digits, if_pos h, true_iff]
    exact ⟨h, fun h2 => by omega⟩
  · have h1 : 1 ≤ n := by omega
    have h8 : n ≤ 8 := by omega
    have hr : max695x_set_num_digits max695x n bus =
        (MAX695X_ERR_NO_ERROR,
          bus ++ spi_frame max695x (uint8_t MAX695X_REG_SCAN_LIMIT) (n - 1)) := by
      simp only [max695x_set_num_digits, if_neg h]
      interval_cases n <;> rfl
    rw [hr]
    exact ⟨⟨fun e => (by cases e), fun e => absurd e h⟩, fun _ => ⟨_, rfl⟩⟩

theorem set_num_digits_invalid_iff_witness :
    257 < 2 ^ 32 ∧
    (((max695x_set_num_digits ⟨1, 2, 3⟩ 257 []).1 = MAX695X_ERR_INVALID_ARGUMENT ↔
        (257 < 1 ∨ 257 > 8)) ∧
      (1 ≤ 257 ∧ 257 ≤ 8 → ∃ address : Nat, max695x_set_num_digits ⟨1, 2, 3⟩ 257 [] =
        (MAX695X_ERR_NO_ERROR, [] ++ spi_frame ⟨1, 2, 3⟩ address (257 - 1)))) :=
  ⟨by decide, set_num_digits_invalid_iff ⟨1, 2, 3⟩ 257 [] (by decide)⟩

/-- C10: for every blink mode byte, `max695x_set_blink_mode` reports no error
and makes one transmission whose data byte has the blink-enable bit (bit 3) set
exactly when the mode is not "disabled" and the blink-rate bit (bit 2) set
exactly when the mode is "fast". -/
theorem set_blink_mode_bits (max695x : max695x_t) (mode : Nat) (bus : List hal_call)
    (hm : mode < 2 ^ 8) :
    ∃ address data : Nat,
      max695x_set_blink_mode max695x mode bus =
        (MAX695X_ERR_NO_ERROR, bus ++ spi_frame max695x address data) ∧
      (data.testBit D_BLINK_ENABLE = true ↔ mode ≠ MAX695X_BLINK_DISABLED) ∧
      (data.testBit D_BLINK_RATE = true ↔ mode = MAX695X_BLINK_FAST) := by
  by_cases hd : mode = MAX695X_BLINK_DISABLED
  · refine ⟨0x00, 0x00, ?_, ?_, ?_⟩
    · subst hd; rfl
    · simp [hd]
    · subst hd; decide
  · by_cases hf : mode = MAX695X_BLINK_FAST
    · refine ⟨0x00, 0x0C, ?_, ?_, ?_⟩
      · subst hf; rfl
      · subst hf; decide
      · subst hf; decide
    · refine ⟨0x00, 0x08, ?_, ?_, ?_⟩
      · have hd2 : mode ≠ MAX6951_BLINK_DISABLED := hd
        have hf2 : ¬ mode = MAX6951_BLINK_FAST := hf
        simp only [max695x_set_blink_mode, if_pos hd2, if_neg hf2, write_eq]
        rfl
      · simp only [hd, ne_eq, not_false_eq_true, iff_true]; decide
      · simp only [hf, iff_false]; decide

theorem set_blink_mode_bits_witness :
    1 < 2 ^ 8 ∧
    ∃ address data : Nat,
      max695x_set_blink_mode ⟨1, 2, 3⟩ 1 [] =
        (MAX695X_ERR_NO_ERROR, [] ++ spi_frame ⟨1, 2, 3⟩ address data) ∧
      (data.testBit D_BLINK_ENABLE = true ↔ 1 ≠ MAX695X_BLINK_DISABLED) ∧
      (data.testBit D_BLINK_RATE = true ↔ 1 = MAX695X_BLINK_FAST) :=
  ⟨by decide, set_blink_mode_bits ⟨1, 2, 3⟩ 1 [] (by decide)⟩

/-! ## The configuration register -/

/-- The data byte `max695x_set_blink_mode` builds for a mode byte. -/
theorem set_blink_mode_eq (max695x : max695x_t) (mode : Nat) (bus : List hal_call) :
    max695x_set_blink_mode max695x mode bus =
      (MAX695X_ERR_NO_ERROR, bus ++ spi_frame max695x (uint8_t MAX695X_REG_CONFIGURE)
        (if mode = MAX695X_BLINK_DISABLED then 0x00
          else if mode = MAX695X_BLINK_FAST then 0x0C else 0x08)) := by
  by_cases hd : mode = MAX695X_BLINK_DISABLED
  · subst hd; rfl
  · by_cases hf : mode = MAX695X_BLINK_FAST
    · subst hf; rfl
    · have hd2 : mode ≠ MAX6951_BLINK_DISABLED := hd
      have hf2 : ¬ mode = MAX6951_BLINK_FAST := hf
      simp only [max695x_set_blink_mode, if_pos hd2, if_neg hf2, write_eq, if_neg hd, if_neg hf]
      rfl

/-- C11: every data byte an operation sends for the configuration register has
the must-be-zero bit (bit 1) clear: `max695x_set_blink_mode` for every mode
byte, and `max695x_clear_digit_data`. -/
theorem configuration_bit1_clear (max695x : max695x_t) (mode : Nat) (bus : List hal_call)
    (hm : mode < 2 ^ 8) :
    (∃ address data : Nat,
        max695x_set_blink_mode max695x mode bus =
          (MAX695X_ERR_NO_ERROR, bus ++ spi_frame max695x address data) ∧
        data.testBit D_CONFIG_UPDATED = false) ∧
      (∃ address data : Nat,
        max695x_clear_digit_data max695x bus =
          (MAX695X_ERR_NO_ERROR, bus ++ spi_frame max695x address data) ∧
        data.testBit D_CONFIG_UPDATED = false) := by
  have : mode < 256 := by omega
  refine ⟨⟨_, _, set_blink_mode_eq max695x mode bus, ?_⟩, ⟨0x00, 0x20, rfl, by decide⟩⟩
  split_ifs <;> decide

theorem configuration_bit1_clear_witness :
    0 < 2 ^ 8 ∧
    ((∃ address data : Nat,
        max695x_set_blink_mode ⟨1, 2, 3⟩ 0 [] =
          (MAX695X_ERR_NO_ERROR, [] ++ spi_frame ⟨1, 2, 3⟩ address data) ∧
        data.testBit D_CONFIG_UPDATED = false) ∧
      (∃ address data : Nat,
        max695x_clear_digit_data ⟨1, 2, 3⟩ [] =
          (MAX695X_ERR_NO_ERROR, [] ++ spi_frame ⟨1, 2, 3⟩ address data) ∧
        data.testBit D_CONFIG_UPDATED = false)) :=
  ⟨by decide, configuration_bit1_clear ⟨1, 2, 3⟩ 0 [] (by decide)⟩

/-! ## One transmission per operation -/

/-- C14: `max695x_clear_digit_data` reports no error and makes one
transmission whose data byte is exactly `0x20`: the reset-data bit (bit 5) is
set and every other bit is clear. -/
theorem clear_digit_data_byte (max695x : max695x_t) (bus : List hal_call) :
    (∃ address : Nat, max695x_clear_digit_data max695x bus =
        (MAX695X_ERR_NO_ERROR, bus ++ spi_frame max695x address 0x20)) ∧
      ∀ i : Nat, Nat.testBit 0x20 i = true ↔ i = D_RESET_DATA := by
  refine ⟨⟨0x00, rfl⟩, fun i => ?_⟩
  have h : (0x20 : Nat) = 2 ^ 5 := by norm_num
  rw [h, Nat.testBit_two_pow]
  simp [D_RESET_DATA, eq_comm]

/-- C15: `max695x_display_mode` reports no error and makes one transmission
whose data byte is 1 for the mode "normal" and 0 for the mode "test" and for
every other mode byte. -/
theorem display_mode_byte (max695x : max695x_t) (mode : Nat) (bus : List hal_call)
    (hm : mode < 2 ^ 8) :
    ∃ address data : Nat,
      max695x_display_mode max695x mode bus =
        (MAX695X_ERR_NO_ERROR, bus ++ spi_frame max695x address data) ∧
      (mode = MAX695X_MODE_NORMAL → data = 1) ∧
      (mode = MAX695X_MODE_TEST → data = 0) ∧
      (mode ≠ MAX695X_MODE_NORMAL → data = 0) := by
  have : mode < 256 := by omega
  by_cases hn : mode = MAX695X_MODE_NORMAL
  · refine ⟨0x00, 1, ?_, fun _ => rfl, fun ht => ?_, fun h => absurd hn h⟩
    · subst hn; rfl
    · rw [ht] at hn; exact absurd hn (by decide)
  · refine ⟨0x00, 0, ?_, fun h => absurd h hn, fun _ => rfl, fun _ => rfl⟩
    simp only [max695x_display_mode, if_neg hn, write_eq]
    rfl

theorem display_mode_byte_witness :
    0 < 2 ^ 8 ∧
    ∃ address data : Nat,
      max695x_display_mode ⟨1, 2, 3⟩ 0 [] =
        (MAX695X_ERR_NO_ERROR, [] ++ spi_frame ⟨1, 2, 3⟩ address data) ∧
      (0 = MAX695X_MODE_NORMAL → data = 1) ∧
      (0 = MAX695X_MODE_TEST → data = 0) ∧
      (0 ≠ MAX695X_MODE_NORMAL → data = 0) :=
  ⟨by decide, display_mode_byte ⟨1, 2, 3⟩ 0 [] (by decide)⟩

/-! ## The decimal point -/

/-- C16, as the claim states it, fails: ANDing the digit value 5 with
`MAX695X_DP` gives 0, a byte without the decimal-point bit and without the
digit. -/
theorem dp_and_recipe_fails :
    ¬ ((5 &&& MAX695X_DP).testBit 7 = true ∧ (5 &&& MAX695X_DP) &&& 0x7F = 5) ∧
      5 &&& MAX695X_DP = 0 := by
  decide

/-- C16, amended: ORing a digit value `v` in 0..15, or any of the `SSEG_*`
glyph patterns, with `MAX695X_DP` gives a byte that has the decimal-point bit 7
set and still carries the digit in its remaining bits. -/
theorem dp_or_recipe (v : Nat) (hv : v ≤ 15) :
    ((v ||| MAX695X_DP).testBit 7 = true ∧ (v ||| MAX695X_DP) &&& 0x7F = v) ∧
      ∀ g ∈ SSEG_NEG :: SSEG_glyphs,
        (g ||| MAX695X_DP).testBit 7 = true ∧ (g ||| MAX695X_DP) &&& 0x7F = g := by
  refine ⟨?_, by decide⟩
  interval_cases v <;> decide

theorem dp_or_recipe_witness :
    5 ≤ 15 ∧
    (((5 ||| MAX695X_DP).testBit 7 = true ∧ (5 ||| MAX695X_DP) &&& 0x7F = 5) ∧
      ∀ g ∈ SSEG_NEG :: SSEG_glyphs,
        (g ||| MAX695X_DP).testBit 7 = true ∧ (g ||| MAX695X_DP) &&& 0x7F = g) :=
  ⟨by decide, dp_or_recipe 5 (by decide)⟩

/-! ## The function `ipow10` -/

theorem wrap_int_range (z : Int) : INT_MIN ≤ wrap_int z ∧ wrap_int z ≤ INT_MAX := by
  unfold wrap_int INT_MIN INT_MAX
  omega

/-- Whatever the loop of `ipow10` returns is the value of an `int`. -/
theorem ipow10_loop_range (fuel : Nat) :
    ∀ (exp base result : Int) (exact : List Int) (r : Int) (e : List Int),
      INT_MIN ≤ result ∧ result ≤ INT_MAX →
      ipow10_loop fuel exp base result exact = some (r, e) →
      INT_MIN ≤ r ∧ r ≤ INT_MAX := by
  induction fuel with
  | zero =>
    intro exp base result exact r e _ h
    simp [ipow10_loop] at h
  | succ n ih =>
    intro exp base result exact r e hres h
    simp only [ipow10_loop] at h
    split_ifs at h
    all_goals first
      | exact ih _ _ _ _ r e (wrap_int_range _) h
      | exact ih _ _ _ _ r e hres h
      | (simp only [Option.some.injEq, Prod.mk.injEq] at h
         rw [← h.1]
         first | exact wrap_int_range _ | exact hres)

theorem ipow10_range (exp r : Int) (h : ipow10 exp = some r) : INT_MIN ≤ r ∧ r ≤ INT_MAX := by
  unfold ipow10 ipow10_run at h
  split_ifs at h
  · simp only [Option.map_some', Option.some.injEq] at h
    rw [← h]
    decide
  · cases hl : ipow10_loop 32 exp 10 1 [] with
    | none => simp [hl] at h
    | some p =>
      obtain ⟨r2, e⟩ := p
      simp only [hl, Option.map_some', Option.some.injEq] at h
      rw [← h]
      exact ipow10_loop_range 32 exp 10 1 [] r2 e (by decide) hl

/-- C13: for every `exp` in 0..9, `ipow10` returns exactly `10 ^ exp`, computed
in 32-bit `int` arithmetic; in particular `ipow10 0 = 1` and
`ipow10 3 = 1000`. -/
theorem ipow10_eq_pow (exp : Int) (h0 : 0 ≤ exp) (h9 : exp ≤ 9) :
    ipow10 exp = some (10 ^ exp.toNat) ∧ ipow10 0 = some 1 ∧ ipow10 3 = some 1000 := by
  refine ⟨?_, by decide, by decide⟩
  interval_cases exp <;> rfl

theorem ipow10_eq_pow_witness :
    (0 : Int) ≤ 9 ∧ (9 : Int) ≤ 9 ∧
    (ipow10 9 = some (10 ^ (9 : Int).toNat) ∧ ipow10 0 = some 1 ∧ ipow10 3 = some 1000) :=
  ⟨by decide, by decide, ipow10_eq_pow 9 (by decide) (by decide)⟩

/-- C18: for every `exp` in 0..9 every product `ipow10` computes for `result`
and `base` lies in the range of a 32-bit `int`, being at most `10 ^ 9`; for
`exp = 10` the last product is `10 ^ 10`, which does not fit; and for no
`exp` of 10 or more is the returned `int` equal to `10 ^ exp`, so 9 is the
largest exponent `ipow10` is right for. -/
theorem ipow10_products_fit (exp : Int) (h0 : 0 ≤ exp) (h9 : exp ≤ 9) :
    (∃ (r : Int) (exact : List Int), ipow10_run exp = some (r, exact) ∧
        ∀ p ∈ exact, INT_MIN ≤ p ∧ p ≤ 10 ^ 9 ∧ p ≤ INT_MAX) ∧
      (∃ r : Int, ipow10_run 10 =
          some (r, [10 ^ 2, 10 ^ 2, 10 ^ 4, 10 ^ 8, 10 ^ 10]) ∧ r ≠ 10 ^ 10) ∧
      INT_MAX < 10 ^ 10 ∧
      ∀ big : Int, 10 ≤ big → ipow10 big ≠ some (10 ^ big.toNat) := by
  refine ⟨?_, ⟨1410065408, by rfl, by decide⟩, by decide, ?_⟩
  · interval_cases exp
    all_goals exact ⟨_, _, rfl, by decide⟩
  · intro big hbig hcontra
    have hr := (ipow10_range big _ hcontra).2
    have h10 : (10 : Int) ^ 10 ≤ 10 ^ big.toNat :=
      pow_le_pow_right₀ (by norm_num) (by omega)
    have : INT_MAX < (10 : Int) ^ 10 := by decide
    omega

theorem ipow10_products_fit_witness :
    (0 : Int) ≤ 9 ∧ (9 : Int) ≤ 9 ∧
    ((∃ (r : Int) (exact : List Int), ipow10_run 9 = some (r, exact) ∧
        ∀ p ∈ exact, INT_MIN ≤ p ∧ p ≤ 10 ^ 9 ∧ p ≤ INT_MAX) ∧
      (∃ r : Int, ipow10_run 10 =
          some (r, [10 ^ 2, 10 ^ 2, 10 ^ 4, 10 ^ 8, 10 ^ 10]) ∧ r ≠ 10 ^ 10) ∧
      INT_MAX < 10 ^ 10 ∧
      ∀ big : Int, 10 ≤ big → ipow10 big ≠ some (10 ^ big.toNat)) :=
  ⟨by decide, by decide, ipow10_products_fit 9 (by decide) (by decide)⟩

/-! ## Displaying a number -/

/-- C19: for every blink mode byte the data byte `max695x_set_blink_mode`
transmits is one of `0x00`, `0x08`, `0x0C`; so the operation-mode bit (bit 0) is
always 0 and the blink-rate bit (bit 2) is never set without the blink-enable
bit (bit 3). -/
theorem set_blink_mode_byte_values (max695x : max695x_t) (mode : Nat) (bus : List hal_call)
    (hm : mode < 2 ^ 8) :
    ∃ address data : Nat,
      max695x_set_blink_mode max695x mode bus =
        (MAX695X_ERR_NO_ERROR, bus ++ spi_frame max695x address data) ∧
      (data = 0x00 ∨ data = 0x08 ∨ data = 0x0C) ∧
      data.testBit D_OPERATION_MODE = false ∧
      (data.testBit D_BLINK_RATE = true → data.testBit D_BLINK_ENABLE = true) := by
  have : mode < 256 := by omega
  refine ⟨_, _, set_blink_mode_eq max695x mode bus, ?_, ?_, ?_⟩
  all_goals split_ifs <;> decide

theorem set_blink_mode_byte_values_witness :
    0xFF < 2 ^ 8 ∧
    ∃ address data : Nat,
      max695x_set_blink_mode ⟨1, 2, 3⟩ 0xFF [] =
        (MAX695X_ERR_NO_ERROR, [] ++ spi_frame ⟨1, 2, 3⟩ address data) ∧
      (data = 0x00 ∨ data = 0x08 ∨ data = 0x0C) ∧
      data.testBit D_OPERATION_MODE = false ∧
      (data.testBit D_BLINK_RATE = true → data.testBit D_BLINK_ENABLE = true) :=
  ⟨by decide, set_blink_mode_byte_values ⟨1, 2, 3⟩ 0xFF [] (by decide)⟩

/-- C20: the 36 patterns `SSEG_A` .. `SSEG_Z`, `SSEG_0` .. `SSEG_9` are pairwise
distinct, non-zero and have the decimal-point bit (bit 7) clear; ORing
`SSEG_DP` into any of them sets bit 7, and masking with `0x7F` gives the glyph
back. -/
theorem sseg_glyphs_distinct :
    SSEG_glyphs.length = 36 ∧ SSEG_glyphs.Nodup ∧
      ∀ g ∈ SSEG_glyphs,
        g ≠ 0 ∧ g.testBit 7 = false ∧
          (g ||| SSEG_DP).testBit 7 = true ∧ (g ||| SSEG_DP) &&& 0x7F = g := by
  decide

end Max695x
